import Mathlib

/-!
Shallow embedding of the haozhu asynchronous API client
(`haozhu/client.py`, `haozhu/utils.py`, `haozhu/exceptions.py`,
`haozhu/models.py`) and proofs about its session, retry and
error-classification behaviour.
-/

set_option autoImplicit false

namespace HaoZhu

/-! ## String containment (Python's `in` on `str`, and `str.lower`) -/

/-- Whether `pat` is a prefix of `l` (character lists). -/
def isPfxOf : List Char → List Char → Bool
  | [], _ => true
  | _ :: _, [] => false
  | a :: as, b :: bs => a == b && isPfxOf as bs

/-- Whether `pat` occurs contiguously somewhere in `l`: Python's `pat in s`. -/
def containsPat (pat : List Char) : List Char → Bool
  | [] => isPfxOf pat []
  | b :: bs => isPfxOf pat (b :: bs) || containsPat pat bs

/-- `hasSubstr s pat` models Python's `pat in s` for strings. -/
def hasSubstr (s pat : String) : Bool :=
  containsPat pat.data s.data

/-- Models Python's `str.lower()`.  `Char.toLower` only lowers ASCII letters,
which covers every pattern the client searches for case-insensitively. -/
def strLower (s : String) : String :=
  ⟨s.data.map Char.toLower⟩

/-! ## Error taxonomy (`haozhu/exceptions.py`)

Every exception carries `{message, code}`; `code` is `none` when the raise
site passes no code. -/

inductive HZError where
  | AuthenticationError (message : String) (code : Option String)
  | APIError (message : String) (code : Option String)
  | RateLimitError (message : String) (code : Option String)
  | PhoneNotAvailableError (message : String) (code : Option String)
  | MessageNotReadyError (message : String) (code : Option String)
  | InsufficientBalanceError (message : String) (code : Option String)
  deriving DecidableEq, Repr

/-- The five kinds the classifier can actually produce
(`RateLimitError` is reserved and never raised). -/
def producedKind : HZError → Bool
  | .RateLimitError _ _ => false
  | _ => true

/-! ## Response envelope

The decoded JSON body, restricted to the keys the client reads; `none`
models an absent key.  `code` is stored already stringified (the source
applies `str(...)` to whatever JSON value arrived). -/

structure RespData where
  code : Option String := none
  msg : Option String := none
  token : Option String := none
  phone : Option String := none
  sid : Option Int := none
  country_name : Option String := none
  country_code : Option String := none
  country_qu : Option String := none
  sp : Option String := none
  phone_gsd : Option String := none
  sms : Option String := none
  yzm : Option String := none
  money : Option String := none
  num : Option Int := none
  deriving DecidableEq, Repr

/-- The envelope with every key absent. -/
def emptyResp : RespData := {}

/-! ## Classifier (`HaoZhuClient._check_response`) -/

/-- `_check_response(data, context)`: returns `none` when the code is a
success code, otherwise the exception the source raises. -/
def checkResponse (data : RespData) (context : String) : Option HZError :=
  let code := data.code.getD "-1"
  let msg := data.msg.getD "未知错误"
  if code == "0" || code == "200" then
    none
  else
    let error_msg := if context == "" then msg else context ++ ": " ++ msg
    if hasSubstr (strLower msg) "token" || hasSubstr msg "登录" || hasSubstr msg "密码" then
      some (.AuthenticationError error_msg (some code))
    else if hasSubstr msg "余额" || hasSubstr msg "扣费" then
      some (.InsufficientBalanceError error_msg (some code))
    else if hasSubstr msg "号码" && (hasSubstr msg "无" || hasSubstr msg "没有" || hasSubstr msg "不足") then
      some (.PhoneNotAvailableError error_msg (some code))
    else if hasSubstr msg "等待" || (hasSubstr msg "短信" && (hasSubstr msg "无" || hasSubstr msg "没有")) then
      some (.MessageNotReadyError error_msg (some code))
    else
      some (.APIError error_msg (some code))

/-! ## Retry machinery (`haozhu/utils.py`, `retry` decorator)

The wrapped coroutine's behaviour on attempt `i` is an `AttemptOutcome`:
it returns, raises one of the retryable exception types from the
decorator's `exceptions` tuple, or raises anything else (which the
`except` clause does not catch and therefore propagates immediately). -/

inductive AttemptOutcome (E F T : Type) where
  | ok (t : T)
  | retryable (e : E)
  | fatal (e : F)
  deriving DecidableEq, Repr

inductive RetryResult (E F T : Type) where
  | ok (t : T)
  | fatal (e : F)
  | exhausted (e : E)
  | runtimeError
  deriving DecidableEq, Repr

/-- Observable trace of one run of the retry loop: its result, the attempt
numbers at which the wrapped coroutine was invoked, and the waits (in
seconds, exact rationals standing for the source's floats) slept between
attempts. -/
structure RetryTrace (E F T : Type) where
  result : RetryResult E F T
  calls : List Nat
  sleeps : List ℚ
  deriving DecidableEq, Repr

/-- The `for attempt in range(1, _max_attempts + 1)` loop, over the list of
remaining attempt numbers, carrying `last_exception`. -/
def retryGo {E F T : Type} (f : Nat → AttemptOutcome E F T) (maxAttempts : Nat)
    (delay : ℚ) (eb : Bool) : List Nat → Option E → RetryTrace E F T
  | [], none => ⟨.runtimeError, [], []⟩
  | [], some e => ⟨.exhausted e, [], []⟩
  | a :: rest, _ =>
    match f a with
    | .ok t => ⟨.ok t, [a], []⟩
    | .fatal e => ⟨.fatal e, [a], []⟩
    | .retryable e =>
      let tr := retryGo f maxAttempts delay eb rest (some e)
      if a < maxAttempts then
        ⟨tr.result, a :: tr.calls, (if eb then delay * 2 ^ (a - 1) else delay) :: tr.sleeps⟩
      else
        ⟨tr.result, a :: tr.calls, tr.sleeps⟩

/-- One run of the decorated call: attempts `1, 2, ..., maxAttempts`. -/
def retryRun {E F T : Type} (f : Nat → AttemptOutcome E F T) (maxAttempts : Nat)
    (delay : ℚ) (eb : Bool) : RetryTrace E F T :=
  retryGo f maxAttempts delay eb (List.range' 1 maxAttempts) none

/-! ## Client state (`HaoZhuClient`) -/

/-- The transport-level exceptions named in the decorator's `exceptions`
tuple: `(aiohttp.ClientError, TimeoutError)`. -/
inductive TransportErr where
  | clientError (s : String)
  | timeoutError (s : String)
  deriving DecidableEq, Repr

/-- An `aiohttp.ClientSession`; only its `closed` flag is observable to the
client's control flow. -/
structure ConnSession where
  closed : Bool
  deriving DecidableEq, Repr

/-- The mutable fields of `HaoZhuClient`. -/
structure ClientState where
  username : String
  password : String
  token : String
  server : String
  session : Option ConnSession
  deriving DecidableEq, Repr

/-- `_ensure_session`: create a fresh open session if absent or closed. -/
def ensureSession (c : ClientState) : ClientState × ConnSession :=
  match c.session with
  | none => ({ c with session := some ⟨false⟩ }, ⟨false⟩)
  | some s =>
    if s.closed then ({ c with session := some ⟨false⟩ }, ⟨false⟩) else (c, s)

/-- `close`: release the session if it exists and is not already closed. -/
def close (c : ClientState) : ClientState :=
  match c.session with
  | none => c
  | some s => if s.closed then c else { c with session := none }

/-- Whether the client currently holds an open connection resource. -/
def sessionOpen (c : ClientState) : Bool :=
  match c.session with
  | none => false
  | some s => !s.closed

/-! ## Login (`HaoZhuClient.login`) -/

inductive LoginRes where
  | ok (token : String)
  | appError (e : HZError)
  | transport (e : TransportErr)
  deriving DecidableEq, Repr

/-- Outcome of one attempt of the login body: its result, the client state it
leaves behind, and whether a network request was issued. -/
structure LoginOut where
  res : LoginRes
  state : ClientState
  net : Bool
  deriving DecidableEq, Repr

/-- One attempt of the `login` body.  `r` is what the network produces for
this attempt: a transport exception or a decoded envelope. -/
def loginStep (c : ClientState) (r : Except TransportErr RespData) : LoginOut :=
  if c.username == "" || c.password == "" then
    ⟨.appError (.AuthenticationError "用户名和密码不能为空" none), c, false⟩
  else
    let c1 := (ensureSession c).1
    match r with
    | .error te => ⟨.transport te, c1, true⟩
    | .ok data =>
      match checkResponse data "登录" with
      | some e => ⟨.appError e, c1, true⟩
      | none =>
        let tok := data.token.getD ""
        let c2 := { c1 with token := tok }
        if tok == "" then
          ⟨.appError (.AuthenticationError "登录成功但未返回 token" none), c2, true⟩
        else
          ⟨.ok tok, c2, true⟩

/-- The `@retry`-decorated login.  Attempts are modelled from the same
pre-attempt state: the only mutation a retried (transport-failing) attempt
leaves behind is the idempotent session creation, which does not feed back
into any later attempt's control flow. -/
def loginDecorated (c : ClientState) (responses : Nat → Except TransportErr RespData)
    (maxAttempts : Nat) (delay : ℚ) (eb : Bool) :
    RetryTrace TransportErr (HZError × ClientState) (String × ClientState) :=
  retryRun
    (fun i =>
      let o := loginStep c (responses i)
      match o.res with
      | .ok t => .ok (t, o.state)
      | .appError e => .fatal (e, o.state)
      | .transport te => .retryable te)
    maxAttempts delay eb

/-- `_ensure_token`: login only when the held token is empty. -/
def ensureToken (c : ClientState) (r : Except TransportErr RespData) : LoginOut :=
  if c.token == "" then loginStep c r else ⟨.ok c.token, c, false⟩

/-! ## Request building (`HaoZhuClient._build_url`) -/

/-- The `query_parts` list: `api=<name>` first, then `key=value` for each
parameter whose value is not `None`, in insertion order. -/
def queryParts (api : String) (params : List (String × Option String)) : List String :=
  ("api=" ++ api) :: params.filterMap fun p => p.2.map fun v => p.1 ++ "=" ++ v

/-- `_build_url(api, **params)`. -/
def buildUrl (server api : String) (params : List (String × Option String)) : String :=
  server ++ "/sms/?" ++ String.intercalate "&" (queryParts api params)

/-! ## Domain operations -/

inductive OpRes where
  | ok (data : RespData)
  | appError (e : HZError)
  | transport (e : TransportErr)
  deriving DecidableEq, Repr

/-- The common shape of a domain operation: `_ensure_token`, then the
`@retry`-wrapped `_request` (whose network outcome for the present attempt is
`rop`), then `_check_response` on the decoded envelope.  `rlogin` is the
network outcome of the login that `_ensure_token` may trigger. -/
def domainOp (c : ClientState) (rlogin rop : Except TransportErr RespData)
    (ctx : String) : OpRes × ClientState :=
  let o := ensureToken c rlogin
  match o.res with
  | .appError e => (.appError e, o.state)
  | .transport te => (.transport te, o.state)
  | .ok _ =>
    let c2 := (ensureSession o.state).1
    match rop with
    | .error te => (.transport te, c2)
    | .ok data =>
      match checkResponse data ctx with
      | some e => (.appError e, c2)
      | none => (.ok data, c2)

/-- The retried `_request` of a domain operation followed by the single
`_check_response` call the operation performs on the decoded envelope.
Application-level classification happens outside the retry loop. -/
def dispatchAndCheck {F : Type} (responses : Nat → AttemptOutcome TransportErr F RespData)
    (maxAttempts : Nat) (delay : ℚ) (eb : Bool) (ctx : String) :
    RetryTrace TransportErr (F ⊕ HZError) RespData :=
  let tr := retryRun responses maxAttempts delay eb
  match tr.result with
  | .ok data =>
    match checkResponse data ctx with
    | some e => ⟨.fatal (.inr e), tr.calls, tr.sleeps⟩
    | none => ⟨.ok data, tr.calls, tr.sleeps⟩
  | .fatal e => ⟨.fatal (.inl e), tr.calls, tr.sleeps⟩
  | .exhausted e => ⟨.exhausted e, tr.calls, tr.sleeps⟩
  | .runtimeError => ⟨.runtimeError, tr.calls, tr.sleeps⟩

/-- One `if x is not None: params[key] = int(x)`-style insertion of
`get_phone` (used for `operator`, `province`, `phone_type`). -/
def optEntryInt (key : String) (o : Option Int) : List (String × String) :=
  match o with
  | none => []
  | some v => [(key, toString v)]

/-- One `if x: params[key] = x`-style insertion of `get_phone` (used for the
four string filters): Python truthiness also drops the empty string. -/
def optEntryStr (key : String) (o : Option String) : List (String × String) :=
  match o with
  | none => []
  | some v => if v == "" then [] else [(key, v)]

/-- The parameter dict built by `get_phone`, in insertion order, values
already stringified as the f-string in `_build_url` would render them.
`operator` is the wire key for the carrier. -/
def getPhoneParams (token : String) (sid : Int)
    (carrier province phone_type : Option Int)
    (pfx exclude_pfx uid author : Option String) : List (String × String) :=
  [("token", token), ("sid", toString sid)]
    ++ optEntryInt "operator" carrier
    ++ optEntryInt "province" province
    ++ optEntryInt "phone_type" phone_type
    ++ optEntryStr "prefix" pfx
    ++ optEntryStr "exclude_prefix" exclude_pfx
    ++ optEntryStr "uid" uid
    ++ optEntryStr "author" author

/-- The URL `get_phone` hands to the transport. -/
def getPhoneUrl (server token : String) (sid : Int)
    (carrier province phone_type : Option Int)
    (pfx exclude_pfx uid author : Option String) : String :=
  buildUrl server "getPhone"
    ((getPhoneParams token sid carrier province phone_type pfx exclude_pfx uid author).map
      fun p => (p.1, some p.2))

/-! ## Success-payload parsing (`PhoneNumber` results, boolean operations) -/

structure PhoneNumber where
  phone : String
  sid : Int
  country_name : String
  country_code : String
  country_qu : String
  sp : String
  phone_gsd : String
  deriving DecidableEq, Repr

/-- The `PhoneNumber(...)` built by `get_phone` from a success envelope. -/
def parsePhoneNumber (data : RespData) (sid : Int) : PhoneNumber where
  phone := data.phone.getD ""
  sid := data.sid.getD sid
  country_name := data.country_name.getD "中国"
  country_code := data.country_code.getD "CN"
  country_qu := data.country_qu.getD "86"
  sp := data.sp.getD ""
  phone_gsd := data.phone_gsd.getD ""

/-- The `PhoneNumber(...)` built by `get_phone_specific`: the `phone` field
defaults to the requested number. -/
def parsePhoneNumberSpecific (data : RespData) (sid : Int) (phone : String) : PhoneNumber where
  phone := data.phone.getD phone
  sid := data.sid.getD sid
  country_name := data.country_name.getD "中国"
  country_code := data.country_code.getD "CN"
  country_qu := data.country_qu.getD "86"
  sp := data.sp.getD ""
  phone_gsd := data.phone_gsd.getD ""

/-- `release_phone` after `_request` returned `data`. -/
def releasePhone (token : String) (sid : Int) (phone : String) (data : RespData) :
    Except HZError Bool :=
  match checkResponse data "释放号码" with
  | some e => .error e
  | none => .ok true

/-- `release_all` after `_request` returned `data`. -/
def releaseAll (token : String) (data : RespData) : Except HZError Bool :=
  match checkResponse data "释放所有号码" with
  | some e => .error e
  | none => .ok true

/-- `blacklist_phone` after `_request` returned `data`. -/
def blacklistPhone (token : String) (sid : Int) (phone : String) (data : RespData) :
    Except HZError Bool :=
  match checkResponse data "拉黑号码" with
  | some e => .error e
  | none => .ok true

/-! ## Theorems -/

/-- C1: for every envelope whose stringified code is neither "0" nor "200",
the classifier produces exactly one of the five produced error kinds (never
`RateLimitError`), chosen by the fixed keyword priority order; in particular,
whenever the message contains "token" case-insensitively the result is
`AuthenticationError`, regardless of any other keyword matches. -/
theorem C1_classifier_priority (data : RespData) (context : String)
    (h0 : data.code.getD "-1" ≠ "0") (h200 : data.code.getD "-1" ≠ "200") :
    (∃ e, checkResponse data context = some e ∧ producedKind e = true) ∧
    (hasSubstr (strLower (data.msg.getD "未知错误")) "token" = true →
      ∃ m c, checkResponse data context = some (HZError.AuthenticationError m c)) := by
  have hc : (data.code.getD "-1" == "0" || data.code.getD "-1" == "200") = false := by
    simp [h0, h200]
  constructor
  · unfold checkResponse
    simp only [hc, Bool.false_eq_true, if_false]
    split
    · exact ⟨_, rfl, rfl⟩
    · split
      · exact ⟨_, rfl, rfl⟩
      · split
        · exact ⟨_, rfl, rfl⟩
        · split
          · exact ⟨_, rfl, rfl⟩
          · exact ⟨_, rfl, rfl⟩
  · intro ht
    unfold checkResponse
    simp only [hc, Bool.false_eq_true, if_false, ht, Bool.true_or, if_true]
    exact ⟨_, _, rfl⟩

/-- Concrete instance of C1: code "500", message "Token 无效". -/
def respC1 : RespData := { emptyResp with code := some "500", msg := some "Token 无效" }

theorem C1_classifier_priority_witness :
    (∃ e, checkResponse respC1 "x" = some e ∧ producedKind e = true) ∧
    (hasSubstr (strLower (respC1.msg.getD "未知错误")) "token" = true →
      ∃ m c, checkResponse respC1 "x" = some (HZError.AuthenticationError m c)) :=
  C1_classifier_priority respC1 "x" (by decide) (by decide)

/-- C2: a retrying dispatch with `max_attempts = 3`, `delay = 1.0`,
exponential backoff on, whose wrapped operation raises a retryable transport
exception on every attempt, invokes the operation exactly at attempts
1, 2, 3, sleeps 1.0s then 2.0s between consecutive attempts, and finally
re-raises the transport exception of the last attempt unchanged. -/
theorem C2_retry_exhaustion {E F T : Type} (e : Nat → E) :
    retryRun (fun i => (AttemptOutcome.retryable (e i) : AttemptOutcome E F T)) 3 1 true =
      ⟨.exhausted (e 3), [1, 2, 3], [1, 2]⟩ := by
  show retryGo _ 3 1 true (List.range' 1 3) none = _
  norm_num [List.range', retryGo]

/-- `_ensure_session` only ever touches the `session` field. -/
theorem ensureSession_token (c : ClientState) : (ensureSession c).1.token = c.token := by
  obtain ⟨u, p, t, sv, sess⟩ := c
  cases sess with
  | none => rfl
  | some s =>
    simp only [ensureSession]
    split <;> rfl

/-- Concrete client for the C3 counterexample: token "old" is held. -/
def cexStateC3 : ClientState := ⟨"u", "p", "old", "https://api.haozhuma.com", none⟩

/-- Concrete envelope for the C3 counterexample: success code, no token key. -/
def cexRespC3 : RespData := { emptyResp with code := some "0" }

/-- C3 counterexample: `login` called while token "old" is held, against a
success-code envelope that omits the token field, raises
`AuthenticationError` yet leaves the held token overwritten with "" — the
session moved from Authenticated back to Unauthenticated. -/
theorem C3_counterexample :
    cexStateC3.token = "old" ∧
    (loginStep cexStateC3 (Except.ok cexRespC3)).res =
      LoginRes.appError (HZError.AuthenticationError "登录成功但未返回 token" none) ∧
    (loginStep cexStateC3 (Except.ok cexRespC3)).state.token = "" := by
  decide

/-- C3 (amended): the held token survives every `AuthenticationError` raise
except the one login path forced by the counterexample.  Login preserves the
token on the empty-credentials path, on every transport failure, and on
every non-success response; `_ensure_token` and every domain operation
preserve a held non-empty token on all paths, so no operation other than
that login path moves the session from Authenticated to Unauthenticated. -/
theorem C3_token_stability (c : ClientState) (rlogin rop : Except TransportErr RespData)
    (ctx : String) :
    ((c.username = "" ∨ c.password = "") → (loginStep c rlogin).state.token = c.token) ∧
    (∀ te, rlogin = Except.error te → (loginStep c rlogin).state.token = c.token) ∧
    (∀ d e, rlogin = Except.ok d → checkResponse d "登录" = some e →
      (loginStep c rlogin).state.token = c.token) ∧
    (c.token ≠ "" → (ensureToken c rlogin).state.token = c.token) ∧
    (c.token ≠ "" → (domainOp c rlogin rop ctx).2.token = c.token) := by
  refine ⟨?_, ?_, ?_, ?_, ?_⟩
  · intro h
    have hc : (c.username == "" || c.password == "") = true := by
      rcases h with h | h <;> simp [h]
    simp [loginStep, hc]
  · rintro te rfl
    by_cases hc : (c.username == "" || c.password == "") = true
    · simp [loginStep, hc]
    · simp [loginStep, hc, ensureSession_token]
  · rintro d e rfl he
    by_cases hc : (c.username == "" || c.password == "") = true
    · simp [loginStep, hc]
    · simp [loginStep, hc, he, ensureSession_token]
  · intro ht
    have hbe : (c.token == "") = false := by simp [ht]
    simp [ensureToken, hbe]
  · intro ht
    have hbe : (c.token == "") = false := by simp [ht]
    unfold domainOp ensureToken
    simp only [hbe, Bool.false_eq_true, if_false]
    cases rop with
    | error te => simp [ensureSession_token]
    | ok d =>
      cases hcr : checkResponse d ctx with
      | none => simp [hcr, ensureSession_token]
      | some e => simp [hcr, ensureSession_token]

/-- Concrete client for the C3 witness: token "tok" is held. -/
def witStateC3 : ClientState := ⟨"u", "p", "tok", "s", none⟩

theorem C3_token_stability_witness :
    (ensureToken witStateC3 (Except.ok emptyResp)).state.token = witStateC3.token :=
  (C3_token_stability witStateC3 (Except.ok emptyResp) (Except.ok emptyResp) "").2.2.2.1
    (by decide)

/-- C4: application-level failures are never retried.  If the transport
succeeds on the first attempt and the envelope classifies to an error, the
dispatched operation performs exactly one attempt, sleeps never, and
surfaces that one classified error immediately; and inside any retried call
(login's shape) a raised taxonomy error is not caught by the retry loop:
it escapes at the attempt that raised it with no further attempt or wait. -/
theorem C4_app_errors_not_retried {F : Type}
    (responses : Nat → AttemptOutcome TransportErr F RespData)
    (n : Nat) (d : ℚ) (eb : Bool) (ctx : String) (data : RespData) (err : HZError)
    (hn : 1 ≤ n) (h1 : responses 1 = .ok data) (he : checkResponse data ctx = some err) :
    dispatchAndCheck responses n d eb ctx =
      ⟨.fatal (Sum.inr err), [1], []⟩ ∧
    (∀ (G : Type) (g : Nat → AttemptOutcome TransportErr G RespData) (x : G),
      g 1 = .fatal x → retryRun g n d eb = ⟨.fatal x, [1], []⟩) := by
  obtain ⟨m, rfl⟩ := Nat.exists_eq_add_of_le hn
  constructor
  · unfold dispatchAndCheck retryRun
    rw [Nat.add_comm, List.range'_succ]
    simp [retryGo, h1, he]
  · intro G g x hg
    unfold retryRun
    rw [Nat.add_comm, List.range'_succ]
    simp [retryGo, hg]

/-- Concrete envelope for the C4 witness: code "1", message "zzz". -/
def respC4 : RespData := { emptyResp with code := some "1", msg := some "zzz" }

theorem C4_app_errors_not_retried_witness :
    dispatchAndCheck (fun _ => (AttemptOutcome.ok respC4 : AttemptOutcome TransportErr Unit RespData))
        3 1 true "" =
      ⟨.fatal (Sum.inr (HZError.APIError "zzz" (some "1"))), [1], []⟩ ∧
    (∀ (G : Type) (g : Nat → AttemptOutcome TransportErr G RespData) (x : G),
      g 1 = .fatal x → retryRun g 3 1 true = ⟨.fatal x, [1], []⟩) :=
  C4_app_errors_not_retried (fun _ => .ok respC4) 3 1 true "" respC4
    (HZError.APIError "zzz" (some "1")) (by decide) rfl (by decide)

/-- Keys contributed by an `optEntryInt` insertion. -/
theorem optEntryInt_keys (key : String) (o : Option Int) :
    (optEntryInt key o).map Prod.fst = if o.isSome then [key] else [] := by
  cases o <;> rfl

/-- Keys contributed by an `optEntryStr` insertion. -/
theorem optEntryStr_keys (key : String) (o : Option String) :
    (optEntryStr key o).map Prod.fst = if o.getD "" == "" then [] else [key] := by
  cases o with
  | none => rfl
  | some v => by_cases h : v == "" <;> simp [optEntryStr, h]

/-- The ordered key list of the `get_phone` parameter dict. -/
theorem getPhoneParams_keys (t : String) (sid : Int) (c pv pt : Option Int)
    (px epx uid au : Option String) :
    (getPhoneParams t sid c pv pt px epx uid au).map Prod.fst =
      ["token", "sid"]
        ++ (if c.isSome then ["operator"] else [])
        ++ (if pv.isSome then ["province"] else [])
        ++ (if pt.isSome then ["phone_type"] else [])
        ++ (if px.getD "" == "" then [] else ["prefix"])
        ++ (if epx.getD "" == "" then [] else ["exclude_prefix"])
        ++ (if uid.getD "" == "" then [] else ["uid"])
        ++ (if au.getD "" == "" then [] else ["author"]) := by
  simp only [getPhoneParams, List.map_append, optEntryInt_keys, optEntryStr_keys]
  rfl

/-- C5: the built query consists of `api=<name>` first, then each
parameter whose value is not null, in the call site's insertion order; a
null-valued parameter is omitted entirely.  For `get_phone`, an optional
filter passed as null or as the empty string never reaches the request, and
a non-empty one appears exactly once, in call-site order. -/
theorem C5_request_building :
    (∀ (api k : String) (ps1 ps2 : List (String × Option String)),
      queryParts api (ps1 ++ (k, none) :: ps2) = queryParts api (ps1 ++ ps2)) ∧
    (∀ (api : String) (ps : List (String × Option String)),
      (queryParts api ps).head? = some ("api=" ++ api)) ∧
    (∀ (api : String) (ps : List (String × String)),
      queryParts api (ps.map fun p => (p.1, some p.2)) =
        ("api=" ++ api) :: ps.map fun p => p.1 ++ "=" ++ p.2) ∧
    (∀ (t : String) (sid : Int) (c pv pt : Option Int) (epx uid au : Option String),
      "prefix" ∉ (getPhoneParams t sid c pv pt none epx uid au).map Prod.fst ∧
      "prefix" ∉ (getPhoneParams t sid c pv pt (some "") epx uid au).map Prod.fst) ∧
    (∀ (t : String) (sid : Int) (c pv pt : Option Int) (p : String)
      (epx uid au : Option String), p ≠ "" →
      ((getPhoneParams t sid c pv pt (some p) epx uid au).map Prod.fst).count "prefix" = 1) ∧
    (∀ (t : String) (sid : Int) (cv pvv ptv : Int) (p q u w : String),
      p ≠ "" → q ≠ "" → u ≠ "" → w ≠ "" →
      (getPhoneParams t sid (some cv) (some pvv) (some ptv) (some p) (some q) (some u)
          (some w)).map Prod.fst =
        ["token", "sid", "operator", "province", "phone_type", "prefix",
          "exclude_prefix", "uid", "author"]) := by
  have hcount0 : ∀ (c pv pt : Option Int) (px epx uid au : Option String),
      px.getD "" == "" →
      ∀ (t : String) (sid : Int),
      ((getPhoneParams t sid c pv pt px epx uid au).map Prod.fst).count "prefix" = 0 := by
    intro c pv pt px epx uid au hpx t sid
    rw [getPhoneParams_keys]
    simp only [List.count_append, apply_ite (List.count "prefix"), hpx, if_true]
    simp
  refine ⟨?_, ?_, ?_, ?_, ?_, ?_⟩
  · intro api k ps1 ps2
    simp [queryParts]
  · intro api ps
    rfl
  · intro api ps
    simp only [queryParts, List.cons.injEq, true_and]
    induction ps with
    | nil => rfl
    | cons a l ih => simp [ih]
  · intro t sid c pv pt epx uid au
    constructor
    · exact List.count_eq_zero.mp (hcount0 c pv pt none epx uid au rfl t sid)
    · exact List.count_eq_zero.mp (hcount0 c pv pt (some "") epx uid au rfl t sid)
  · intro t sid c pv pt p epx uid au hp
    have hp' : ((some p).getD "" == "") = false := by simp [hp]
    rw [getPhoneParams_keys]
    simp only [List.count_append, apply_ite (List.count "prefix"), hp', if_false]
    simp
  · intro t sid cv pvv ptv p q u w hp hq hu hw
    have hp' : ((some p).getD "" == "") = false := by simp [hp]
    have hq' : ((some q).getD "" == "") = false := by simp [hq]
    have hu' : ((some u).getD "" == "") = false := by simp [hu]
    have hw' : ((some w).getD "" == "") = false := by simp [hw]
    rw [getPhoneParams_keys]
    simp [hp', hq', hu', hw', hp, hq, hu, hw]

theorem C5_request_building_witness :
    ((getPhoneParams "tok" 5 none none none (some "138") none none none).map
        Prod.fst).count "prefix" = 1 :=
  C5_request_building.2.2.2.2.1 "tok" 5 none none none "138" none none none (by decide)

/-- C6: a login whose response envelope carries a success code ("0" or
"200") but omits the token field, or carries an empty token, raises
`AuthenticationError` instead of returning. -/
theorem C6_login_success_without_token (c : ClientState) (data : RespData)
    (hu : c.username ≠ "") (hp : c.password ≠ "")
    (hcode : data.code.getD "-1" = "0" ∨ data.code.getD "-1" = "200")
    (htok : data.token.getD "" = "") :
    (loginStep c (Except.ok data)).res =
      LoginRes.appError (HZError.AuthenticationError "登录成功但未返回 token" none) := by
  have hcreds : (c.username == "" || c.password == "") = false := by simp [hu, hp]
  have hchk : checkResponse data "登录" = none := by
    unfold checkResponse
    rcases hcode with h | h <;> simp [h]
  simp [loginStep, hcreds, hchk, htok]

/-- Concrete client for the C6 witness. -/
def witStateC6 : ClientState := ⟨"u", "p", "", "s", none⟩

/-- Concrete envelope for the C6 witness: success code, no token key. -/
def witRespC6 : RespData := { emptyResp with code := some "200" }

theorem C6_login_success_without_token_witness :
    (loginStep witStateC6 (Except.ok witRespC6)).res =
      LoginRes.appError (HZError.AuthenticationError "登录成功但未返回 token" none) :=
  C6_login_success_without_token witStateC6 witRespC6 (by decide) (by decide)
    (Or.inr rfl) rfl

/-- C7: login with an empty username or an empty password raises
`AuthenticationError` before any network activity: the client state
(including the connection resource) is untouched, no request is issued, and
the surrounding retry loop performs a single attempt with no backoff wait
because the raise is not a retryable transport exception. -/
theorem C7_empty_credentials_no_network (c : ClientState)
    (rs : Nat → Except TransportErr RespData) (n : Nat) (d : ℚ) (eb : Bool)
    (h : c.username = "" ∨ c.password = "") (hn : 1 ≤ n) :
    loginStep c (rs 1) =
      ⟨.appError (.AuthenticationError "用户名和密码不能为空" none), c, false⟩ ∧
    loginDecorated c rs n d eb =
      ⟨.fatal (HZError.AuthenticationError "用户名和密码不能为空" none, c), [1], []⟩ := by
  have hc : (c.username == "" || c.password == "") = true := by
    rcases h with h | h <;> simp [h]
  have hstep : ∀ r, loginStep c r =
      ⟨.appError (.AuthenticationError "用户名和密码不能为空" none), c, false⟩ := by
    intro r
    simp [loginStep, hc]
  refine ⟨hstep _, ?_⟩
  obtain ⟨m, rfl⟩ := Nat.exists_eq_add_of_le hn
  unfold loginDecorated retryRun
  rw [Nat.add_comm, List.range'_succ]
  simp [retryGo, hstep]

/-- Concrete client for the C7 witness: empty password. -/
def witStateC7 : ClientState := ⟨"u", "", "t", "s", some ⟨false⟩⟩

theorem C7_empty_credentials_no_network_witness :
    loginStep witStateC7 (Except.ok emptyResp) =
      ⟨.appError (.AuthenticationError "用户名和密码不能为空" none), witStateC7, false⟩ ∧
    loginDecorated witStateC7 (fun _ => Except.ok emptyResp) 3 1 true =
      ⟨.fatal (HZError.AuthenticationError "用户名和密码不能为空" none, witStateC7),
        [1], []⟩ :=
  C7_empty_credentials_no_network witStateC7 (fun _ => Except.ok emptyResp) 3 1 true
    (Or.inr rfl) (by decide)

/-- C8: every field of the `PhoneNumber` built by `get_phone` and
`get_phone_specific` has a deterministic default when the payload omits the
key: country name "中国", country code "CN", dial code "86", carrier "",
locale description "", project id the requested `sid`; `get_phone` defaults
the phone to "" while `get_phone_specific` defaults it to the requested
number. -/
theorem C8_phone_result_defaults (data : RespData) (sid : Int) (phone : String) :
    (data.country_name = none → (parsePhoneNumber data sid).country_name = "中国" ∧
      (parsePhoneNumberSpecific data sid phone).country_name = "中国") ∧
    (data.country_code = none → (parsePhoneNumber data sid).country_code = "CN" ∧
      (parsePhoneNumberSpecific data sid phone).country_code = "CN") ∧
    (data.country_qu = none → (parsePhoneNumber data sid).country_qu = "86" ∧
      (parsePhoneNumberSpecific data sid phone).country_qu = "86") ∧
    (data.sp = none → (parsePhoneNumber data sid).sp = "" ∧
      (parsePhoneNumberSpecific data sid phone).sp = "") ∧
    (data.phone_gsd = none → (parsePhoneNumber data sid).phone_gsd = "" ∧
      (parsePhoneNumberSpecific data sid phone).phone_gsd = "") ∧
    (data.sid = none → (parsePhoneNumber data sid).sid = sid ∧
      (parsePhoneNumberSpecific data sid phone).sid = sid) ∧
    (data.phone = none → (parsePhoneNumber data sid).phone = "") ∧
    (data.phone = none → (parsePhoneNumberSpecific data sid phone).phone = phone) := by
  refine ⟨?_, ?_, ?_, ?_, ?_, ?_, ?_, ?_⟩ <;> intro h <;>
    simp [parsePhoneNumber, parsePhoneNumberSpecific, h]

theorem C8_phone_result_defaults_witness :
    (parsePhoneNumberSpecific emptyResp 7 "13800138000").phone = "13800138000" :=
  (C8_phone_result_defaults emptyResp 7 "13800138000").2.2.2.2.2.2.2 rfl

/-- C9: `close()` is idempotent: closing a client whose connection resource
was never opened leaves it untouched (no raise is modelled because the
source has no failing path), closing twice equals closing once, and after a
close no open connection resource remains. -/
theorem C9_close_idempotent :
    (∀ c : ClientState, c.session = none → close c = c) ∧
    (∀ c : ClientState, close (close c) = close c) ∧
    (∀ c : ClientState, sessionOpen (close c) = false) := by
  refine ⟨?_, ?_, ?_⟩
  · intro c h
    simp [close, h]
  · intro c
    obtain ⟨u, p, t, sv, sess⟩ := c
    cases sess with
    | none => rfl
    | some s =>
      obtain ⟨cl⟩ := s
      cases cl <;> simp [close]
  · intro c
    obtain ⟨u, p, t, sv, sess⟩ := c
    cases sess with
    | none => rfl
    | some s =>
      obtain ⟨cl⟩ := s
      cases cl <;> simp [close, sessionOpen]

/-- Concrete never-opened client for the C9 witness. -/
def witStateC9 : ClientState := ⟨"", "", "", "", none⟩

theorem C9_close_idempotent_witness : close witStateC9 = witStateC9 :=
  C9_close_idempotent.1 witStateC9 rfl

/-- C10: `release_phone`, `release_all` and `blacklist_phone` never return
`False`: each either returns `True` or raises a classified error, so the
boolean result carries no information beyond the absence of an exception. -/
theorem C10_boolean_ops_never_false (t : String) (sid : Int) (phone : String)
    (data : RespData) :
    releasePhone t sid phone data ≠ Except.ok false ∧
    releaseAll t data ≠ Except.ok false ∧
    blacklistPhone t sid phone data ≠ Except.ok false ∧
    (releasePhone t sid phone data = Except.ok true ∨
      ∃ e, releasePhone t sid phone data = Except.error e) ∧
    (releaseAll t data = Except.ok true ∨ ∃ e, releaseAll t data = Except.error e) ∧
    (blacklistPhone t sid phone data = Except.ok true ∨
      ∃ e, blacklistPhone t sid phone data = Except.error e) := by
  refine ⟨?_, ?_, ?_, ?_, ?_, ?_⟩
  · cases h : checkResponse data "释放号码" <;> simp [releasePhone, h]
  · cases h : checkResponse data "释放所有号码" <;> simp [releaseAll, h]
  · cases h : checkResponse data "拉黑号码" <;> simp [blacklistPhone, h]
  · cases h : checkResponse data "释放号码" <;> simp [releasePhone, h]
  · cases h : checkResponse data "释放所有号码" <;> simp [releaseAll, h]
  · cases h : checkResponse data "拉黑号码" <;> simp [blacklistPhone, h]

theorem C10_boolean_ops_never_false_witness :
    releasePhone "t" 1 "13800138000" emptyResp ≠ Except.ok false :=
  (C10_boolean_ops_never_false "t" 1 "13800138000" emptyResp).1

end HaoZhu
